import Mathlib

/-!
# Credential issuance and verification flow of the chatbot backend

A shallow embedding of the authentication core of the `chatbot-backend`
repository: password hashing (`app/core/security.py`), JWT issuance and
verification (`app/core/security.py`), registration and login orchestration
(`app/api/endpoints/auth.py`, `app/services/user_service.py`), and the
caller-facing schemas (`app/schemas/user.py`).

Modelling conventions:

* Time is `Nat` seconds; `datetime.utcnow()` becomes an explicit `now`
  parameter, and `timedelta` values become second counts.
* The bcrypt digest computed by passlib is abstracted as the injective
  function `bcryptDigest plaintext salt := (plaintext, salt)`: the claims
  depend only on it being deterministic in `(plaintext, salt)` and
  injective (the salt is embedded in the output, as in real bcrypt),
  never on the numeric value of the digest.  Per-call salt randomness is
  made explicit as a `salt : Nat` parameter.
* The HS256 MAC computed by python-jose is likewise abstracted as the
  injective `mkSig secret payload := (secret, payload)`; the claims depend
  only on a signature verifying exactly when it was produced from the same
  secret and payload.
* `uuid.uuid4()` becomes an explicit `freshId : String` parameter.
* Python exceptions become `Except` results: raising `HTTPException`
  is `Except.error` of an `HTTPError` record, and exceptions escaping the
  passlib layer are the `ApiError.internal` constructor.
* The database session holding the `users` table becomes a `List User`
  threaded explicitly; `select(User).where(User.email == email)` with
  `scalar_one_or_none()` becomes `List.find?` on the email field.
-/

/-- Idealized bcrypt digest: deterministic in `(plaintext, salt)` and
injective, which is all the specification's claims use about it.  The
salt is recoverable from a well-formed hash string, as in real bcrypt's
`$2b$rounds$salt??digest` format. -/
def bcryptDigest (plaintext : String) (salt : Nat) : String × Nat :=
  (plaintext, salt)

/-- A candidate hash string, as fed to passlib's `CryptContext.verify`:
either a well-formed bcrypt modular-crypt string (salt plus digest), or a
string that no configured scheme recognizes. -/
inductive HashStr where
  | bcrypt (salt : Nat) (digest : String × Nat)
  | unrecognized (raw : String)
deriving DecidableEq, Repr

/-- `get_password_hash` (security.py:43-45): `pwd_context.hash(password)`.
passlib draws a fresh random salt on each call; the draw is made explicit
as the `salt` argument. -/
def get_password_hash (password : String) (salt : Nat) : HashStr :=
  .bcrypt salt (bcryptDigest password salt)

/-- `verify_password` (security.py:38-40): `pwd_context.verify(plain, hashed)`.
passlib recomputes the digest using the salt embedded in a well-formed hash
and compares; on a hash string no scheme recognizes it raises
`UnknownHashError` rather than returning `False`. -/
def verify_password (plain_password : String) (hashed_password : HashStr) :
    Except String Bool :=
  match hashed_password with
  | .bcrypt salt digest => .ok (decide (bcryptDigest plain_password salt = digest))
  | .unrecognized _ => .error "UnknownHashError: hash could not be identified"

/-- Config constant `ACCESS_TOKEN_EXPIRE_MINUTES` (config.py:21). -/
def ACCESS_TOKEN_EXPIRE_MINUTES : Nat := 30

/-- The JWT claims dictionary produced by `create_access_token`: the
callers put a `"sub"` entry in `data` (absent or null models C10's case)
and the function itself adds `"exp"`. -/
structure Payload where
  sub : Option String
  exp : Nat
deriving DecidableEq, Repr

/-- Idealized HS256 MAC: a signature verifies against `(secret, payload)`
exactly when it was produced from that same secret and payload. -/
def mkSig (secret : String) (payload : Payload) : String × Payload :=
  (secret, payload)

/-- A presented token string: either a structurally well-formed JWT
(payload plus signature, possibly tampered or forged), or bytes that do
not decode as a JWT at all. -/
inductive Wire where
  | token (payload : Payload) (sig : String × Payload)
  | garbage (raw : String)
deriving DecidableEq, Repr

/-- `jwt.encode(to_encode, SECRET_KEY, algorithm)` from python-jose. -/
def jwt_encode (payload : Payload) (secret : String) : Wire :=
  .token payload (mkSig secret payload)

/-- The failure modes of python-jose's `jwt.decode`; all are subclasses of
`JWTError`, so `get_current_user`'s single `except JWTError` catches each. -/
inductive JWTErr where
  | malformed
  | invalidSignature
  | expired
deriving DecidableEq, Repr

/-- `jwt.decode(token, SECRET_KEY, algorithms=[ALGORITHM])` from
python-jose: structural decode, then signature check, then `exp` claim
validation against the current time (zero leeway: expired iff
`exp < now`). -/
def jwt_decode (w : Wire) (secret : String) (now : Nat) :
    Except JWTErr Payload :=
  match w with
  | .garbage _ => .error .malformed
  | .token payload sig =>
    if sig ≠ mkSig secret payload then .error .invalidSignature
    else if payload.exp < now then .error .expired
    else .ok payload

/-- `create_access_token` (security.py:23-35).  Note the Python guard is
`if expires_delta:` — a zero `timedelta` is falsy, so `expires_delta = 0`
takes the `else` branch and the default ttl, exactly like `None`. -/
def create_access_token (sub : String) (expires_delta : Option Nat)
    (now : Nat) (secret : String) : Wire :=
  let expire :=
    match expires_delta with
    | some d =>
      if d ≠ 0 then now + d
      else now + ACCESS_TOKEN_EXPIRE_MINUTES * 60
    | none => now + ACCESS_TOKEN_EXPIRE_MINUTES * 60
  jwt_encode { sub := some sub, exp := expire } secret

/-- Modelled from the spec: `app/models/user.py` is imported throughout the
backend but absent from the source tree; the spec's §3 data model and §6
table layout give its fields: `id (text, pk)`, `email (unique text)`,
`hashed_password (text)`, `is_guest (bool)`, `is_active (bool)`,
`created_at`, `updated_at`, the bookkeeping fields set at creation. -/
structure User where
  id : String
  email : String
  hashed_password : HashStr
  is_guest : Bool
  is_active : Bool
  created_at : Nat
  updated_at : Nat
deriving DecidableEq, Repr

/-- `select(User).where(User.email == email)` followed by
`scalar_one_or_none()`, as in `UserService.get_user_by_email`
(user_service.py:36-40) and `authenticate_user` / `get_current_user`
(security.py): first stored user whose email is an exact string match. -/
def findUser (store : List User) (email : String) : Option User :=
  store.find? (fun u => u.email == email)

/-- Request body of `POST /auth/register` (schemas/user.py, `UserCreate`). -/
structure UserCreate where
  email : String
  password : String
deriving DecidableEq, Repr

/-- Caller-facing user view (schemas/user.py, `UserResponse`): exactly the
fields `{id, email, is_guest, is_active, created_at, updated_at}` — no
password and no hash field exists in the schema. -/
structure UserResponse where
  id : String
  email : String
  is_guest : Bool
  is_active : Bool
  created_at : Nat
  updated_at : Nat
deriving DecidableEq, Repr

/-- `UserResponse.from_orm(db_user)`: projects a stored `User` onto the
public schema fields. -/
def UserResponse.from_orm (u : User) : UserResponse :=
  { id := u.id, email := u.email, is_guest := u.is_guest,
    is_active := u.is_active, created_at := u.created_at,
    updated_at := u.updated_at }

/-- An HTTP error response as raised via `HTTPException`: status code,
detail message, and the optional `WWW-Authenticate` header. -/
structure HTTPError where
  status_code : Nat
  detail : String
  wwwAuthenticate : Option String
deriving DecidableEq, Repr

/-- The single `credentials_exception` built in `get_current_user`
(security.py:67-71) and raised on every token-validation failure path. -/
def credentials_exception : HTTPError :=
  { status_code := 401, detail := "Could not validate credentials",
    wwwAuthenticate := some "Bearer" }

/-- `UserService.create_user` (user_service.py:20-34): hash the password,
build the record with a fresh uuid and `is_guest = False` (the missing
model's bookkeeping defaults, per spec §3: `is_active` true and the
timestamps set at creation), and insert it. -/
def create_user (store : List User) (user_data : UserCreate)
    (freshId : String) (salt : Nat) (now : Nat) : User × List User :=
  let db_user : User :=
    { id := freshId, email := user_data.email,
      hashed_password := get_password_hash user_data.password salt,
      is_guest := false, is_active := true,
      created_at := now, updated_at := now }
  (db_user, store ++ [db_user])

/-- The exact record `create_user` builds and inserts for a registration
request, named for reuse in the statements below. -/
def freshUser (uc : UserCreate) (freshId : String) (salt now : Nat) : User :=
  { id := freshId, email := uc.email,
    hashed_password := get_password_hash uc.password salt,
    is_guest := false, is_active := true,
    created_at := now, updated_at := now }

/-- `register` (auth.py:24-42): look the email up; if a user exists, raise
400 "Email already registered" (before any insert); else create and return
the public view.  The resulting store is returned alongside, unchanged on
the error path. -/
def register (store : List User) (user : UserCreate) (freshId : String)
    (salt : Nat) (now : Nat) : Except HTTPError UserResponse × List User :=
  match findUser store user.email with
  | some _ =>
    (.error { status_code := 400, detail := "Email already registered",
              wwwAuthenticate := none }, store)
  | none =>
    let (db_user, store') := create_user store user freshId salt now
    (.ok (UserResponse.from_orm db_user), store')

/-- `authenticate_user` (security.py:48-58): look up by email; return
`False` (here `none`) if no user or the password fails verification.
A passlib exception would propagate, hence the outer `Except`. -/
def authenticate_user (store : List User) (email password : String) :
    Except String (Option User) :=
  match findUser store email with
  | none => .ok none
  | some user =>
    match verify_password password user.hashed_password with
    | .error e => .error e
    | .ok b => .ok (if b then some user else none)

/-- The errors escaping a request handler: an `HTTPException`, or an
uncaught internal exception (propagated as a 5xx by the framework). -/
inductive ApiError where
  | http (e : HTTPError)
  | internal (msg : String)
deriving DecidableEq, Repr

/-- Response body of a successful login (schemas/user.py, `Token`). -/
structure Token where
  access_token : Wire
  token_type : String
  user : Option UserResponse
deriving DecidableEq, Repr

/-- `login` (auth.py:45-67): authenticate; on failure raise 401
"Incorrect email or password" with `WWW-Authenticate: Bearer`; on success
issue a token for the user's email with the default 30-minute ttl passed
explicitly as `expires_delta`. -/
def login (store : List User) (username password : String)
    (secret : String) (now : Nat) : Except ApiError Token :=
  match authenticate_user store username password with
  | .error e => .error (.internal e)
  | .ok none =>
    .error (.http { status_code := 401, detail := "Incorrect email or password",
                    wwwAuthenticate := some "Bearer" })
  | .ok (some user) =>
    .ok { access_token :=
            create_access_token user.email
              (some (ACCESS_TOKEN_EXPIRE_MINUTES * 60)) now secret,
          token_type := "bearer",
          user := some (UserResponse.from_orm user) }

/-- `get_current_user` (security.py:61-92): decode the presented token; on
any `JWTError`, on a missing/null `"sub"` claim, and on a subject that
resolves to no stored user, raise the one shared `credentials_exception`. -/
def get_current_user (store : List User) (w : Wire) (secret : String)
    (now : Nat) : Except HTTPError User :=
  match jwt_decode w secret now with
  | .error _ => .error credentials_exception
  | .ok payload =>
    match payload.sub with
    | none => .error credentials_exception
    | some email =>
      match findUser store email with
      | none => .error credentials_exception
      | some user => .ok user

/-- One registration request with its nondeterministic inputs (fresh uuid,
fresh salt, current time) made explicit. -/
structure RegisterCall where
  user : UserCreate
  freshId : String
  salt : Nat
  now : Nat
deriving Repr

/-- Sequential execution of `register` calls against the store. -/
def runRegisters (calls : List RegisterCall) (store : List User) : List User :=
  match calls with
  | [] => store
  | c :: rest => runRegisters rest (register store c.user c.freshId c.salt c.now).2

/-! ## General lemmas about the embedded operations -/

theorem findUser_append_of_none {store : List User} {email : String}
    (l : List User) (h : findUser store email = none) :
    findUser (store ++ l) email = findUser l email := by
  simp only [findUser] at *
  rw [List.find?_append, h, Option.none_or]

theorem findUser_singleton_self (u : User) : findUser [u] u.email = some u := by
  simp [findUser]

theorem register_of_not_found {store : List User} {uc : UserCreate}
    (freshId : String) (salt now : Nat) (h : findUser store uc.email = none) :
    register store uc freshId salt now =
      (.ok (UserResponse.from_orm (freshUser uc freshId salt now)),
       store ++ [freshUser uc freshId salt now]) := by
  simp [register, h, create_user, freshUser]

theorem login_of_found {store : List User} {email password : String} {u : User}
    (secret : String) (now : Nat)
    (hf : findUser store email = some u)
    (hv : verify_password password u.hashed_password = .ok true) :
    login store email password secret now =
      .ok { access_token := create_access_token u.email (some 1800) now secret,
            token_type := "bearer", user := some (UserResponse.from_orm u) } := by
  simp [login, authenticate_user, hf, hv, ACCESS_TOKEN_EXPIRE_MINUTES]

theorem verify_freshUser (uc : UserCreate) (freshId : String) (salt now : Nat) :
    verify_password uc.password (freshUser uc freshId salt now).hashed_password
      = .ok true := by
  simp [verify_password, freshUser, get_password_hash]

theorem authenticate_user_ok_some {store : List User} {e pw : String} {v : User}
    (h : authenticate_user store e pw = .ok (some v)) :
    findUser store e = some v ∧ verify_password pw v.hashed_password = .ok true := by
  unfold authenticate_user at h
  cases hf : findUser store e with
  | none => simp [hf] at h
  | some u =>
    simp only [hf] at h
    cases hv : verify_password pw u.hashed_password with
    | error m => simp [hv] at h
    | ok b =>
      simp only [hv] at h
      cases b with
      | false => simp at h
      | true =>
        simp at h
        subst h
        exact ⟨rfl, hv⟩

theorem login_ok_inversion {store : List User} {e pw secret : String} {now : Nat}
    {tok : Token} (h : login store e pw secret now = .ok tok) :
    ∃ v, findUser store e = some v ∧ verify_password pw v.hashed_password = .ok true ∧
      tok = { access_token := create_access_token v.email (some 1800) now secret,
              token_type := "bearer", user := some (UserResponse.from_orm v) } := by
  unfold login at h
  cases ha : authenticate_user store e pw with
  | error msg => rw [ha] at h; simp at h
  | ok o =>
    cases o with
    | none => rw [ha] at h; simp at h
    | some v =>
      rw [ha] at h
      simp at h
      obtain ⟨hfind, hver⟩ := authenticate_user_ok_some ha
      exact ⟨v, hfind, hver, h.symm⟩

theorem emails_nodup_register (store : List User) (uc : UserCreate)
    (freshId : String) (salt now : Nat)
    (h : (store.map User.email).Nodup) :
    (((register store uc freshId salt now).2).map User.email).Nodup := by
  cases hf : findUser store uc.email with
  | some u => simpa [register, hf] using h
  | none =>
    have hnotin : uc.email ∉ store.map User.email := by
      intro hmem
      obtain ⟨v, hv, hveq⟩ := List.mem_map.mp hmem
      have hf' : store.find? (fun w => w.email == uc.email) = none := hf
      have hne := List.find?_eq_none.mp hf' v hv
      rw [hveq] at hne
      simp at hne
    simp [register, hf, create_user, List.nodup_append, h, hnotin]

/-! ## The claims -/

/-- C1: for every valid email and password pair, calling `register` on a
store with no user for that email and then `login` with the same
credentials succeeds, and decoding the returned access token with the
server secret (at any time before its expiry) yields a `sub` claim equal
to the email. -/
theorem register_then_login_token_subject
    (store : List User) (email password freshId secret : String)
    (salt now now2 t : Nat)
    (hfree : findUser store email = none) (ht : t ≤ now2 + 1800) :
    (∃ resp, (register store ⟨email, password⟩ freshId salt now).1 = .ok resp) ∧
    ∃ tok, login (register store ⟨email, password⟩ freshId salt now).2
        email password secret now2 = .ok tok ∧
      ∃ p, jwt_decode tok.access_token secret t = .ok p ∧ p.sub = some email := by
  have hreg := @register_of_not_found store ⟨email, password⟩ freshId salt now hfree
  rw [hreg]
  refine ⟨⟨_, rfl⟩, ?_⟩
  have hfind : findUser (store ++ [freshUser ⟨email, password⟩ freshId salt now]) email
      = some (freshUser ⟨email, password⟩ freshId salt now) := by
    rw [findUser_append_of_none _ hfree]
    exact findUser_singleton_self _
  have hlog := login_of_found secret now2 hfind
    (verify_freshUser ⟨email, password⟩ freshId salt now)
  rw [hlog]
  have hdec : jwt_decode (create_access_token email (some 1800) now2 secret) secret t
      = .ok { sub := some email, exp := now2 + 1800 } := by
    simp [create_access_token, jwt_encode, jwt_decode, mkSig]
    omega
  exact ⟨_, rfl, _, hdec, rfl⟩

/-- Witness for C1 at the spec's scenario: register `alice@example.com` /
`secret123` on the empty store, log in, decode the token. -/
theorem register_then_login_token_subject_witness :
    (∃ resp, (register [] ⟨"alice@example.com", "secret123"⟩ "uuid-1" 7 100).1
      = .ok resp) ∧
    ∃ tok, login (register [] ⟨"alice@example.com", "secret123"⟩ "uuid-1" 7 100).2
        "alice@example.com" "secret123" "srv" 200 = .ok tok ∧
      ∃ p, jwt_decode tok.access_token "srv" 250 = .ok p ∧
        p.sub = some "alice@example.com" :=
  register_then_login_token_subject [] "alice@example.com" "secret123" "uuid-1" "srv"
    7 100 200 250 rfl (by omega)

/-- C2 counterexample: the claim as stated is false on the code.  Because
`timedelta(0)` is falsy, `create_access_token` with `expires_delta = 0`
does not set `expiry = now + 0`: at issuance time 1000 the token carries
`exp = 2800` (the 30-minute default), and a verification at time 1500 —
strictly after issuance — accepts it instead of rejecting it as Expired. -/
theorem zero_ttl_token_accepted :
    create_access_token "alice@example.com" (some 0) 1000 "srv"
      = jwt_encode { sub := some "alice@example.com", exp := 1000 + 1800 } "srv" ∧
    create_access_token "alice@example.com" (some 0) 1000 "srv"
      ≠ jwt_encode { sub := some "alice@example.com", exp := 1000 } "srv" ∧
    jwt_decode (create_access_token "alice@example.com" (some 0) 1000 "srv") "srv" 1500
      = .ok { sub := some "alice@example.com", exp := 2800 } :=
  ⟨rfl, by decide, rfl⟩

/-- C2 (amended): a caller-supplied nonzero `expires_delta` overrides the
configured default ttl; `expires_delta = 0` is falsy and is treated
exactly like an absent override, so the token receives the default ttl
and is not rejected right after issuance.  A token whose expiry has
passed (`exp < now`) is rejected as Expired on verification. -/
theorem expires_delta_override_semantics
    (sub secret : String) (d now : Nat) (p : Payload) (t : Nat) :
    (d ≠ 0 → create_access_token sub (some d) now secret
        = jwt_encode { sub := some sub, exp := now + d } secret) ∧
    (create_access_token sub (some 0) now secret
        = create_access_token sub none now secret) ∧
    (p.exp < t → jwt_decode (jwt_encode p secret) secret t = .error .expired) := by
  refine ⟨fun hd => by simp [create_access_token, hd], rfl, fun hlt => ?_⟩
  simp [jwt_encode, jwt_decode, mkSig, hlt]

/-- Witness for the amended C2: a 60-second override takes effect, a zero
override falls back to the default, and a token expired at time 50 is
rejected at time 51. -/
theorem expires_delta_override_semantics_witness :
    create_access_token "alice" (some 60) 100 "srv"
      = jwt_encode { sub := some "alice", exp := 100 + 60 } "srv" ∧
    create_access_token "alice" (some 0) 100 "srv"
      = create_access_token "alice" none 100 "srv" ∧
    jwt_decode (jwt_encode { sub := some "alice", exp := 50 } "srv") "srv" 51
      = .error .expired :=
  ⟨(expires_delta_override_semantics "alice" "srv" 60 100 ⟨some "alice", 50⟩ 51).1
      (by omega),
   (expires_delta_override_semantics "alice" "srv" 60 100 ⟨some "alice", 50⟩ 51).2.1,
   (expires_delta_override_semantics "alice" "srv" 60 100 ⟨some "alice", 50⟩ 51).2.2
      (by decide)⟩

/-- C3: a second `register` with an email already in the store fails with
HTTP 400 "Email already registered", and the store is returned unchanged —
no record is inserted on the error path. -/
theorem duplicate_register_rejected_store_unchanged
    (store : List User) (email password freshId : String) (salt now : Nat)
    (u : User) (hdup : findUser store email = some u) :
    register store ⟨email, password⟩ freshId salt now =
      (.error { status_code := 400, detail := "Email already registered",
                wwwAuthenticate := none }, store) := by
  simp [register, hdup]

/-- Witness for C3: re-registering `alice@example.com` against a store
already holding her record yields the 400 error and the identical store. -/
theorem duplicate_register_rejected_witness :
    register [{ id := "uuid-1", email := "alice@example.com",
                hashed_password := get_password_hash "secret123" 7,
                is_guest := false, is_active := true,
                created_at := 100, updated_at := 100 }]
      ⟨"alice@example.com", "other"⟩ "uuid-2" 8 300 =
      (.error { status_code := 400, detail := "Email already registered",
                wwwAuthenticate := none },
       [{ id := "uuid-1", email := "alice@example.com",
          hashed_password := get_password_hash "secret123" 7,
          is_guest := false, is_active := true,
          created_at := 100, updated_at := 100 }]) :=
  duplicate_register_rejected_store_unchanged _ "alice@example.com" "other" "uuid-2"
    8 300 _ rfl

/-- C4: a login with a wrong password for an existing email and a login
for an email with no user record produce the one identical error value:
HTTP 401, detail "Incorrect email or password", `WWW-Authenticate: Bearer`
— the caller-visible result does not reveal which sub-check failed. -/
theorem login_failures_indistinguishable
    (store : List User) (e1 p1 e2 p2 secret : String) (now1 now2 : Nat)
    (u : User) (hf : findUser store e1 = some u)
    (hv : verify_password p1 u.hashed_password = .ok false)
    (hn : findUser store e2 = none) :
    login store e1 p1 secret now1
      = .error (.http { status_code := 401, detail := "Incorrect email or password",
                        wwwAuthenticate := some "Bearer" }) ∧
    login store e2 p2 secret now2
      = .error (.http { status_code := 401, detail := "Incorrect email or password",
                        wwwAuthenticate := some "Bearer" }) := by
  constructor
  · simp [login, authenticate_user, hf, hv]
  · simp [login, authenticate_user, hn]

/-- Witness for C4: wrong password for `alice@example.com` and a login for
the absent `bob@example.com` return the same 401. -/
theorem login_failures_indistinguishable_witness :
    login [{ id := "uuid-1", email := "alice@example.com",
             hashed_password := get_password_hash "secret123" 7,
             is_guest := false, is_active := true,
             created_at := 100, updated_at := 100 }]
        "alice@example.com" "wrong" "srv" 200
      = .error (.http { status_code := 401, detail := "Incorrect email or password",
                        wwwAuthenticate := some "Bearer" }) ∧
    login [{ id := "uuid-1", email := "alice@example.com",
             hashed_password := get_password_hash "secret123" 7,
             is_guest := false, is_active := true,
             created_at := 100, updated_at := 100 }]
        "bob@example.com" "anything" "srv" 201
      = .error (.http { status_code := 401, detail := "Incorrect email or password",
                        wwwAuthenticate := some "Bearer" }) :=
  login_failures_indistinguishable _ "alice@example.com" "wrong" "bob@example.com"
    "anything" "srv" 200 201 _ rfl rfl rfl

/-- C5: every presented token that is malformed, carries an invalid
signature, is expired, or whose subject resolves to no stored user is
rejected by `get_current_user` with the one shared `credentials_exception`
(HTTP 401, "Could not validate credentials", `WWW-Authenticate: Bearer`),
identical across all four failure causes. -/
theorem get_current_user_uniform_failure
    (store : List User) (w : Wire) (secret : String) (now : Nat)
    (hfail : jwt_decode w secret now = .error .malformed ∨
      jwt_decode w secret now = .error .invalidSignature ∨
      jwt_decode w secret now = .error .expired ∨
      (∃ p email, jwt_decode w secret now = .ok p ∧ p.sub = some email ∧
        findUser store email = none)) :
    get_current_user store w secret now = .error credentials_exception := by
  rcases hfail with he | he | he | ⟨p, email, hp, hs, hn⟩
  · simp [get_current_user, he]
  · simp [get_current_user, he]
  · simp [get_current_user, he]
  · simp [get_current_user, hp, hs, hn]

/-- Witness for C5: an undecodable token is rejected with the shared
generic 401. -/
theorem get_current_user_uniform_failure_witness :
    get_current_user [] (.garbage "zz") "srv" 0 = .error credentials_exception :=
  get_current_user_uniform_failure [] (.garbage "zz") "srv" 0 (Or.inl rfl)

/-- C6 counterexample: the claim as stated is false on the code.  For a
hash string that is not a well-formed hash output, passlib's
`CryptContext.verify` — and hence `verify_password`, which returns its
result directly — raises `UnknownHashError` rather than returning a
boolean `False`. -/
theorem verify_malformed_hash_raises :
    verify_password "secret123" (HashStr.unrecognized "not-a-hash")
      = .error "UnknownHashError: hash could not be identified" ∧
    verify_password "secret123" (HashStr.unrecognized "not-a-hash") ≠ .ok false ∧
    verify_password "secret123" (HashStr.unrecognized "not-a-hash") ≠ .ok true :=
  ⟨rfl, by simp [verify_password], by simp [verify_password]⟩

/-- C6 (amended): for every plaintext and every well-formed hash string,
`verify_password` returns a boolean without throwing, and returns `false`
on any mismatch; for a hash string no configured scheme recognizes it
raises `UnknownHashError` instead of returning `false`. -/
theorem verify_password_boolean_on_recognized
    (plain p raw : String) (salt : Nat) (digest : String × Nat) :
    (∃ b, verify_password plain (.bcrypt salt digest) = .ok b) ∧
    (digest ≠ bcryptDigest plain salt →
      verify_password plain (.bcrypt salt digest) = .ok false) ∧
    verify_password p (.unrecognized raw)
      = .error "UnknownHashError: hash could not be identified" := by
  refine ⟨⟨_, rfl⟩, fun hne => ?_, rfl⟩
  simp [verify_password]
  exact fun h => absurd h.symm hne

/-- Witness for the amended C6: verifying `pw` against a hash of
`secret123` returns the boolean `false`; an unrecognized hash string
raises. -/
theorem verify_password_boolean_on_recognized_witness :
    (∃ b, verify_password "pw" (HashStr.bcrypt 3 (bcryptDigest "secret123" 3)) = .ok b) ∧
    verify_password "pw" (HashStr.bcrypt 3 (bcryptDigest "secret123" 3)) = .ok false ∧
    verify_password "pw" (HashStr.unrecognized "zzz")
      = .error "UnknownHashError: hash could not be identified" :=
  ⟨(verify_password_boolean_on_recognized "pw" "pw" "zzz" 3 (bcryptDigest "secret123" 3)).1,
   (verify_password_boolean_on_recognized "pw" "pw" "zzz" 3
      (bcryptDigest "secret123" 3)).2.1 (by decide),
   (verify_password_boolean_on_recognized "pw" "pw" "zzz" 3
      (bcryptDigest "secret123" 3)).2.2⟩

/-- C7: hashing the same plaintext with two distinct per-call random salts
produces two different hash strings, yet `verify_password` accepts the
plaintext against every hash produced from it. -/
theorem hash_fresh_salt_and_roundtrip (p : String) (s1 s2 : Nat) (h : s1 ≠ s2) :
    get_password_hash p s1 ≠ get_password_hash p s2 ∧
    ∀ s, verify_password p (get_password_hash p s) = .ok true := by
  constructor
  · simp [get_password_hash, bcryptDigest, h]
  · intro s
    simp [verify_password, get_password_hash]

/-- Witness for C7 on `secret123` with salts 0 and 1. -/
theorem hash_fresh_salt_and_roundtrip_witness :
    get_password_hash "secret123" 0 ≠ get_password_hash "secret123" 1 ∧
    ∀ s, verify_password "secret123" (get_password_hash "secret123" s) = .ok true :=
  hash_fresh_salt_and_roundtrip "secret123" 0 1 (by omega)

/-- C8: in every store reachable by sequential `register` calls from the
empty store, no two stored users share an email — the duplicate pre-check
rejects a matching email before any insert, so email is unique across all
records. -/
theorem sequential_registers_no_shared_email (calls : List RegisterCall) :
    List.Pairwise (fun u v : User => u.email ≠ v.email) (runRegisters calls []) := by
  have main : ∀ (cs : List RegisterCall) (store : List User),
      (store.map User.email).Nodup → ((runRegisters cs store).map User.email).Nodup := by
    intro cs
    induction cs with
    | nil => exact fun store h => h
    | cons c rest ih =>
      intro store h
      exact ih _ (emails_nodup_register store c.user c.freshId c.salt c.now h)
  exact List.pairwise_map.mp (main calls [] (by simp))

/-- C9: a successful `register` returns exactly the public view
`{id, email, is_guest, is_active, created_at, updated_at}` with the
freshly generated identifier and `is_guest = false`; the caller-facing
view is unchanged by the stored password hash (so neither the plaintext
nor the hash appears in it), and every successful `login` response
consists only of a token built from the user's email plus that same
public view. -/
theorem register_response_public_view
    (store store2 : List User) (uc : UserCreate) (freshId secret e pw : String)
    (salt now now2 : Nat) (u : User) (h : HashStr) (tok : Token)
    (hfree : findUser store uc.email = none)
    (hlog : login store2 e pw secret now2 = .ok tok) :
    (register store uc freshId salt now).1 =
      .ok { id := freshId, email := uc.email, is_guest := false,
            is_active := true, created_at := now, updated_at := now } ∧
    UserResponse.from_orm { u with hashed_password := h } = UserResponse.from_orm u ∧
    ∃ v, findUser store2 e = some v ∧
      tok = { access_token := create_access_token v.email (some 1800) now2 secret,
              token_type := "bearer", user := some (UserResponse.from_orm v) } := by
  refine ⟨?_, rfl, ?_⟩
  · rw [register_of_not_found _ _ _ hfree]
    rfl
  · obtain ⟨v, hfind, _, htok⟩ := login_ok_inversion hlog
    exact ⟨v, hfind, htok⟩

/-- Witness for C9: registering `alice@example.com` on the empty store and
logging her in against her stored record. -/
theorem register_response_public_view_witness :
    (register [] ⟨"alice@example.com", "secret123"⟩ "uuid-1" 7 100).1 =
      .ok { id := "uuid-1", email := "alice@example.com", is_guest := false,
            is_active := true, created_at := 100, updated_at := 100 } ∧
    UserResponse.from_orm
        { id := "uuid-1", email := "alice@example.com",
          hashed_password := HashStr.unrecognized "other-hash",
          is_guest := false, is_active := true, created_at := 100, updated_at := 100 }
      = UserResponse.from_orm
        { id := "uuid-1", email := "alice@example.com",
          hashed_password := get_password_hash "secret123" 7,
          is_guest := false, is_active := true, created_at := 100, updated_at := 100 } ∧
    ∃ v, findUser [{ id := "uuid-1", email := "alice@example.com",
                     hashed_password := get_password_hash "secret123" 7,
                     is_guest := false, is_active := true,
                     created_at := 100, updated_at := 100 }] "alice@example.com"
        = some v ∧
      ({ access_token := create_access_token "alice@example.com" (some 1800) 200 "srv",
         token_type := "bearer",
         user := some { id := "uuid-1", email := "alice@example.com",
                        is_guest := false, is_active := true,
                        created_at := 100, updated_at := 100 } } : Token)
        = { access_token := create_access_token v.email (some 1800) 200 "srv",
            token_type := "bearer", user := some (UserResponse.from_orm v) } :=
  register_response_public_view []
    [{ id := "uuid-1", email := "alice@example.com",
       hashed_password := get_password_hash "secret123" 7,
       is_guest := false, is_active := true, created_at := 100, updated_at := 100 }]
    ⟨"alice@example.com", "secret123"⟩ "uuid-1" "srv" "alice@example.com" "secret123"
    7 100 200
    { id := "uuid-1", email := "alice@example.com",
      hashed_password := get_password_hash "secret123" 7,
      is_guest := false, is_active := true, created_at := 100, updated_at := 100 }
    (HashStr.unrecognized "other-hash")
    { access_token := create_access_token "alice@example.com" (some 1800) 200 "srv",
      token_type := "bearer",
      user := some { id := "uuid-1", email := "alice@example.com",
                     is_guest := false, is_active := true,
                     created_at := 100, updated_at := 100 } }
    rfl rfl

/-- C10: a token that decodes and verifies successfully but whose payload
carries no `"sub"` claim (so `payload.get("sub")` is `None`) is rejected
by `get_current_user` with the same generic 401 `credentials_exception`
used for invalid tokens. -/
theorem missing_sub_claim_rejected
    (store : List User) (w : Wire) (secret : String) (now : Nat) (p : Payload)
    (hdec : jwt_decode w secret now = .ok p) (hsub : p.sub = none) :
    get_current_user store w secret now = .error credentials_exception := by
  simp [get_current_user, hdec, hsub]

/-- Witness for C10: a correctly signed, unexpired token with no subject
claim is rejected with the generic 401. -/
theorem missing_sub_claim_rejected_witness :
    get_current_user [] (jwt_encode { sub := none, exp := 100 } "srv") "srv" 0
      = .error credentials_exception :=
  missing_sub_claim_rejected [] _ "srv" 0 { sub := none, exp := 100 } rfl rfl
